import Mathlib

/-!
Verification development for the daikin_2_8_0 Home Assistant integration
(custom_components/daikin_2_8_0/climate.py and __init__.py).

The Python code is shallowly embedded: JSON documents become the `Json`
inductive, the entity's mutable fields become the `DeviceState` structure,
HTTP round-trips become explicit parameters (a `Fetch` outcome for reads, a
`List DRequest → Json` device function for writes), and Python exceptions
become explicit `Option`/`Except`/abort channels.  Python `float`
temperatures are modelled as rationals.

Modelling conventions, noted once here:
  * JSON `null` is not modelled: Python's json module maps it to `None`,
    which the code treats identically to an absent value.
  * Python numeric parsing (`int(s)`, `int(s, 16)`) is modelled for plain
    (optionally sign-prefixed) digit strings; exotic forms (whitespace,
    underscores, `0x` prefixes) are treated as parse failures.
  * An exception raised inside a `try` block whose handler returns `None`
    (as in `find_value_by_pn` and `hex_to_temp`) is collapsed to the same
    observable result as a normal "not found" return.
-/

/-- A JSON value as produced by `response.json()`. -/
inductive Json where
  | str (s : String)
  | int (n : Int)
  | arr (xs : List Json)
  | obj (fields : List (String × Json))
deriving Repr

/-- Dictionary lookup, `d.get(key)` on a known dict: `none` when absent. -/
def getField : List (String × Json) → String → Option Json
  | [], _ => none
  | (k, v) :: rest, key => if k = key then some v else getField rest key

def Json.isObj : Json → Bool
  | .obj _ => true
  | _ => false

/-- Models `for x in v` combined with an immediate `x.get(...)` in the loop
body: iterating a list yields its elements; iterating a string yields
characters and iterating a dict yields string keys, on which `.get` raises
at the first element (so only the empty cases complete); iterating an int
raises at once.  `.error` is a Python exception. -/
def iterVal : Json → Except Unit (List Json)
  | .arr xs => .ok xs
  | .str s => if s.isEmpty then .ok [] else .error ()
  | .obj [] => .ok []
  | .obj (_ :: _) => .error ()
  | .int _ => .error ()

/-- `item.get('pch', [])` followed by iteration, for `item` a tree node:
raises (`.error`) when `item` is not a dict or its `pch` is not iterable. -/
def iterPchOf : Json → Except Unit (List Json)
  | .obj fs => iterVal ((getField fs "pch").getD (.arr []))
  | _ => .error ()

/-- `fields.get('pn') == name` for a node known to be a dict. -/
def pnIsStr (fs : List (String × Json)) (name : String) : Bool :=
  match getField fs "pn" with
  | some (.str s) => s = name
  | _ => false

/-- Outcome of one of `find_value_by_pn`'s special-case scan blocks. -/
inductive PyLookup where
  | exc
  | found (pv : Option Json)
  | notFound

/-- One nested-`for` level of a special-case block in `find_value_by_pn`:
visit `xs` in order, entering `k` on every element whose `pn` matches
(`notFound` from `k` continues the outer loop, matching the absence of
`break`); a non-dict element raises when reached. -/
def scanPch (xs : List Json) (name : String) (k : Json → PyLookup) : PyLookup :=
  match xs with
  | [] => .notFound
  | x :: rest =>
    match x with
    | .obj fs =>
      if pnIsStr fs name then
        match k x with
        | .notFound => scanPch rest name k
        | r => r
      else scanPch rest name k
    | _ => .exc

/-- `p_item.get('pv')` at the innermost level of a scan. -/
def pvOf : Json → Option Json
  | .obj fs => getField fs "pv"
  | _ => none

/-- The three-level `for item / for sub_item / for p_item` scan shared by
`find_value_by_pn`'s special-case blocks (lines 447-506 of climate.py). -/
def scan3 (pc : Json) (n1 n2 n3 : String) : PyLookup :=
  match iterPchOf pc with
  | .error _ => .exc
  | .ok xs => scanPch xs n1 fun item =>
      match iterPchOf item with
      | .error _ => .exc
      | .ok ys => scanPch ys n2 fun sub =>
          match iterPchOf sub with
          | .error _ => .exc
          | .ok zs => scanPch zs n3 fun p => .found (pvOf p)

/-- The week_power block's single-level scan (climate.py lines 511-517):
the first child named either `today_runtime` or `datas` wins, regardless
of which of the two the caller asked for. -/
def scanWeek : List Json → PyLookup
  | [] => .notFound
  | x :: rest =>
    match x with
    | .obj fs =>
      if pnIsStr fs "today_runtime" then .found (getField fs "pv")
      else if pnIsStr fs "datas" then .found (getField fs "pv")
      else scanWeek rest
    | _ => .exc

/-- The `fr == '/dsiot/edge/adr_0100.i_power.week_power'` block
(climate.py lines 509-517). -/
def weekBlock (pc : Json) : PyLookup :=
  match pc with
  | .obj pfs =>
    if pnIsStr pfs "week_power" then
      match iterPchOf pc with
      | .error _ => .exc
      | .ok xs => scanWeek xs
    else .notFound
  | _ => .exc

/-- Last element of a non-empty key list (`keys[-1]`), only consulted under
guards that force the list to be non-empty. -/
def lastOf (keys : List String) : String := keys.getLast?.getD ""

/-- Is `keys[-1]` one of the given names? (Short-circuited in the source so
it is only evaluated when `keys` is non-empty.) -/
def lastIn (keys : List String) (names : List String) : Bool :=
  match keys.getLast? with
  | some t => names.contains t
  | none => false

/-- The chain of special-case blocks of `find_value_by_pn` after the
`pc['pn']` strip (climate.py lines 443-521).  Only the first (target
temperature) block ends in an explicit `return None`; the others fall
through to the next block when their scan finds nothing. -/
def specialCases (fr : String) (pc : Json) (keys : List String) : Option Json :=
  if keys.contains "e_3001" && lastIn keys ["p_02", "p_03", "p_1D"] then
    match scan3 pc "e_1002" "e_3001" (lastOf keys) with
    | .found v => v
    | _ => none
  else
    match (if keys.contains "e_A00D" && keys.contains "p_01" && lastIn keys ["p_01"]
           then scan3 pc "e_1003" "e_A00D" "p_01" else .notFound) with
    | .found v => v
    | .exc => none
    | .notFound =>
      match (if keys.contains "e_A00B" && (keys.contains "p_01" || keys.contains "p_02")
             then scan3 pc "e_1002" "e_A00B" (lastOf keys) else .notFound) with
      | .found v => v
      | .exc => none
      | .notFound =>
        match (if keys.contains "e_A002" && keys.contains "p_01"
               then scan3 pc "e_1002" "e_A002" "p_01" else .notFound) with
        | .found v => v
        | .exc => none
        | .notFound =>
          match (if keys.contains "e_3001" && keys.contains "p_01"
                 then scan3 pc "e_1002" "e_3001" "p_01" else .notFound) with
          | .found v => v
          | .exc => none
          | .notFound =>
            if fr = "/dsiot/edge/adr_0100.i_power.week_power" then
              match weekBlock pc with
              | .found v => v
              | _ => none
            else none

/-- Does a response entry satisfy `x.get('fr') == fr`? -/
def matchesFr (fr : String) (x : Json) : Bool :=
  match x with
  | .obj fs =>
    match getField fs "fr" with
    | some (.str s) => s = fr
    | _ => false
  | _ => false

/-- Locate the first response entry whose `fr` matches (climate.py lines
417-434), including the exception behaviour of the two list comprehensions
over `data['responses']` (every element is `.get`-accessed, so a non-dict
element or a non-list `responses` value raises, which the enclosing
`try` turns into `None`). -/
def locate (data : Json) (fr : String) : Option Json :=
  match data with
  | .obj dfs =>
    match getField dfs "responses" with
    | none => none
    | some resps =>
      match iterVal resps with
      | .error _ => none
      | .ok rlist =>
        if rlist.all Json.isObj then
          match rlist.filter (matchesFr fr) with
          | [] => none
          | r :: _ => some r
        else none
  | _ => none

/-- The first-key strip (climate.py lines 437-441) followed by the special
cases: `pc.get('pn')` raises when `keys` is non-empty and `pc` is not a
dict. -/
def findInPc (fr : String) (pc : Json) (keys0 : List String) : Option Json :=
  match keys0 with
  | [] => specialCases fr pc []
  | k0 :: rest =>
    match pc with
    | .obj pfs => specialCases fr pc (if pnIsStr pfs k0 then rest else keys0)
    | _ => none

/-- Processing of the located response entry: `pc = response.get('pc', {})`
then `findInPc`. -/
def findInResponse (fr : String) (response : Json) (keys0 : List String) : Option Json :=
  match response with
  | .obj rfs => findInPc fr ((getField rfs "pc").getD (Json.obj [])) keys0
  | _ => none

/-- `DaikinClimate.find_value_by_pn` (climate.py lines 406-525).  The whole
body is wrapped in `try ... except: return None`, so every exception path
collapses to `none`; the function never raises. -/
def findValueByPn (data : Json) (fr : String) (keys : List String) : Option Json :=
  match locate data fr with
  | none => none
  | some response => findInResponse fr response keys

/-- One hexadecimal digit, as accepted by Python's `int(s, 16)`. -/
def hexDigitVal (c : Char) : Option Nat :=
  if '0' ≤ c ∧ c ≤ '9' then some (c.toNat - '0'.toNat)
  else if 'a' ≤ c ∧ c ≤ 'f' then some (c.toNat - 'a'.toNat + 10)
  else if 'A' ≤ c ∧ c ≤ 'F' then some (c.toNat - 'A'.toNat + 10)
  else none

def parseDigitList (base : Nat) (digit : Char → Option Nat) : List Char → Option Nat
  | [] => none
  | cs => cs.foldl (fun acc c => do
      let a ← acc
      let d ← digit c
      pure (a * base + d)) (some 0)

/-- `int(s, 16)` on a plain string of hex digits; `none` models `ValueError`. -/
def parseHexNat (s : String) : Option Nat :=
  parseDigitList 16 hexDigitVal s.data

def decDigitVal (c : Char) : Option Nat :=
  if '0' ≤ c ∧ c ≤ '9' then some (c.toNat - '0'.toNat) else none

/-- `int(s)` on a plain decimal string with optional leading minus sign;
`none` models `ValueError`. -/
def pyIntOfString (s : String) : Option Int :=
  match s.data with
  | '-' :: rest => (parseDigitList 10 decDigitVal rest).map (fun n => -(n : Int))
  | l => (parseDigitList 10 decDigitVal l).map Int.ofNat

/-- `int(value[:2], 16) / divisor` on a string value. -/
def hexToTempStr (s : String) (divisor : ℚ) : Option ℚ :=
  (parseHexNat (s.take 2)).map fun n => (n : ℚ) / divisor

/-- `DaikinClimate.hex_to_temp` (climate.py lines 527-539) on a present
value.  For non-string values the slice or the `int(..., 16)` call raises
`TypeError`, which the function's own `except` clause turns into `None`. -/
def hexToTemp (v : Json) (divisor : ℚ) : Option ℚ :=
  match v with
  | .str s => hexToTempStr s divisor
  | _ => none

/-- `len(v)`; `none` models the `TypeError` raised by `len` on an int. -/
def pyLen : Json → Option Nat
  | .str s => some s.length
  | .arr xs => some xs.length
  | .obj fs => some fs.length
  | .int _ => none

/-- Python `int()` truncation toward zero of a rational (`int(q)`). -/
def pyTrunc (q : ℚ) : Int := Int.tdiv q.num q.den

/-- `format(n, '02x')`: lowercase hex, zero-padded to overall width 2
(the sign occupies one column for negative inputs). -/
def format02x (n : Int) : String :=
  let body := String.mk (Nat.toDigits 16 n.natAbs)
  if n < 0 then "-" ++ body
  else if body.length < 2 then "0" ++ body else body

inductive HVACMode where
  | off | heat | cool | auto | dry | fanOnly
deriving DecidableEq, Repr

inductive HAFanMode where
  | quiet | auto | level1 | level2 | level3 | level4 | level5
deriving DecidableEq, Repr

inductive SwingMode where
  | off | both | vertical | horizontal
deriving DecidableEq, Repr

/-- `MODE_MAP.get` (climate.py lines 93-99) applied to the decoded mode
value: only the five listed string codes map to a mode. -/
def modeLookup : Option Json → Option HVACMode
  | some (Json.str "0300") => some .auto
  | some (Json.str "0200") => some .cool
  | some (Json.str "0100") => some .heat
  | some (Json.str "0000") => some .fanOnly
  | some (Json.str "0500") => some .dry
  | _ => none

/-- `HVAC_TO_TEMP_HEX` (climate.py lines 101-105). -/
def HVAC_TO_TEMP_HEX : HVACMode → Option String
  | .cool => some "p_02"
  | .heat => some "p_03"
  | .auto => some "p_1D"
  | _ => none

/-- `HVAC_MODE_TO_FAN_SPEED_ATTR_NAME` (climate.py lines 77-83): no entry
for DRY or OFF. -/
def HVAC_MODE_TO_FAN_SPEED_ATTR_NAME : HVACMode → Option String
  | .auto => some "p_2A"
  | .cool => some "p_09"
  | .heat => some "p_0A"
  | .fanOnly => some "p_28"
  | _ => none

/-- `FAN_SPEED_ENTITY_MAP` (climate.py lines 86-91). -/
def FAN_SPEED_ENTITY_MAP : String → Option String := fun n =>
  if n = "p_2A" then some "e_3003"
  else if n = "p_09" ∨ n = "p_0A" ∨ n = "p_28" then some "e_3001"
  else none

/-- `FAN_MODE_MAP` (climate.py lines 47-55). -/
def FAN_MODE_MAP : HAFanMode → String
  | .auto => "0A00"
  | .quiet => "0B00"
  | .level1 => "0300"
  | .level2 => "0400"
  | .level3 => "0500"
  | .level4 => "0600"
  | .level5 => "0700"

/-- `REVERSE_FAN_MODE_MAP` membership and lookup (climate.py line 108). -/
def revFanLookup : String → Option HAFanMode
  | "0A00" => some .auto
  | "0B00" => some .quiet
  | "0300" => some .level1
  | "0400" => some .level2
  | "0500" => some .level3
  | "0600" => some .level4
  | "0700" => some .level5
  | _ => none

/-- `HVAC_MODE_TO_SWING_ATTR_NAMES` (climate.py lines 69-75); indexing it
with OFF would raise `KeyError`, hence `none`. -/
def HVAC_MODE_TO_SWING_ATTR_NAMES : HVACMode → Option (String × String)
  | .auto => some ("p_05", "p_06")
  | .cool => some ("p_05", "p_06")
  | .heat => some ("p_07", "p_08")
  | .fanOnly => some ("p_05", "p_06")
  | .dry => some ("p_05", "p_06")
  | .off => none

/-- The mutable fields of `DaikinClimate` that the update cycle touches
(climate.py lines 182-191). -/
structure DeviceState where
  hvacMode : HVACMode
  fanMode : HAFanMode
  swingMode : SwingMode
  outsideTemperature : Option ℚ
  targetTemperature : Option ℚ
  currentTemperature : Option ℚ
  currentHumidity : Option Int
  runtimeToday : Int
  energyToday : Int
deriving DecidableEq, Repr

/-- Field values set in `DaikinClimate.__init__` (climate.py lines 182-191). -/
def initState : DeviceState :=
  { hvacMode := .off, fanMode := .quiet, swingMode := .off,
    outsideTemperature := none, targetTemperature := none,
    currentTemperature := none, currentHumidity := none,
    runtimeToday := 0, energyToday := 0 }

def fr0100 : String := "/dsiot/edge/adr_0100.dgc_status"
def fr0200 : String := "/dsiot/edge/adr_0200.dgc_status"
def frWeek : String := "/dsiot/edge/adr_0100.i_power.week_power"

/-- Outcome of the three HTTP reads at the top of `DaikinClimate.update`
(climate.py lines 669-672): a connection failure, a non-2xx status (via
`raise_for_status`) or a JSON decode failure each raise before any field
of the entity has been assigned. -/
inductive Fetch where
  | ok (data : Json)
  | connError
  | httpError (status : Nat)
  | badJson
deriving Repr

def Fetch.isFailure : Fetch → Bool
  | .ok _ => false
  | _ => true

/-- Abort-or-continue result of one assignment block inside `update`'s big
`try`: `.error s` means an uncaught exception occurred with the entity's
fields currently equal to `s` (the outer `except` then merely logs, so `s`
is the final state); `.ok s` continues with the next block. -/
abbrev Staged := Except DeviceState DeviceState

/-- `power_state == "00" if power_state is not None else True` (climate.py
line 677): no hashing is involved in `==`, so no value can raise here. -/
def isOffOf : Option Json → Bool
  | none => true
  | some (.str s) => s == "00"
  | some _ => false

/-- Can a decoded value be used as a Python dict key?  JSON lists and
objects are unhashable; strings and numbers (and absence, i.e. `None`)
are hashable. -/
def hashableValue : Option Json → Bool
  | some (.arr _) => false
  | some (.obj _) => false
  | _ => true

/-- Lines 676-680 of climate.py: power state, mode value and the HVAC mode
assignment.  The conditional expression short-circuits, so when `is_off`
is true the mode is OFF without touching `MODE_MAP`; otherwise
`MODE_MAP.get(mode_value, HVACMode.OFF)` hashes its key, and an unhashable
mode value (a JSON list or object) raises `TypeError` before the
assignment, aborting the update with every field — the previous HVAC mode
included — retained. -/
def hvacStage (st : DeviceState) (d : Json) : Staged :=
  let ps := findValueByPn d fr0100 ["dgc_status", "e_1002", "e_A002", "p_01"]
  let mv := findValueByPn d fr0100 ["dgc_status", "e_1002", "e_3001", "p_01"]
  if isOffOf ps then .ok { st with hvacMode := .off }
  else if hashableValue mv then .ok { st with hvacMode := (modeLookup mv).getD .off }
  else .error st

/-- `DaikinClimate._extract_outside_temperature` (climate.py lines 629-657):
string values go through `hex_to_temp` (divisor 2), numeric values are
halved directly, anything else yields `None`. -/
def extractOutside (d : Json) : Option ℚ :=
  match findValueByPn d fr0200 ["dgc_status", "e_1003", "e_A00D", "p_01"] with
  | some (.str s) => hexToTempStr s 2
  | some (.int n) => some ((n : ℚ) / 2)
  | some _ => none
  | none => none

def outsideStage (st : DeviceState) (d : Json) : DeviceState :=
  { st with outsideTemperature := extractOutside d }

/-- The diagnostic loop at climate.py lines 711-723, executed when no target
temperature was found: it only logs, but its traversal of the raw document
can raise (`.error`) and thereby abort the whole update. -/
def walkSubs : List Json → Except Unit Unit
  | [] => .ok ()
  | s :: rest =>
    match s with
    | .obj sfs =>
      match ((if pnIsStr sfs "e_3001" then
               match iterPchOf (.obj sfs) with
               | .error _ => .error ()
               | .ok ps => if ps.all Json.isObj then .ok () else .error ()
             else .ok ()) : Except Unit Unit) with
      | .error _ => .error ()
      | .ok _ => walkSubs rest
    | _ => .error ()

def walkRoots : List Json → Except Unit Unit
  | [] => .ok ()
  | r :: rest =>
    match r with
    | .obj rfs =>
      match ((if pnIsStr rfs "e_1002" then
               match iterPchOf (.obj rfs) with
               | .error _ => .error ()
               | .ok subs => walkSubs subs
             else .ok ()) : Except Unit Unit) with
      | .error _ => .error ()
      | .ok _ => walkRoots rest
    | _ => .error ()

def walkItems : List Json → Except Unit Unit
  | [] => .ok ()
  | item :: rest =>
    match item with
    | .obj ifs =>
      match ((if matchesFr fr0100 (.obj ifs) then
               match iterPchOf ((getField ifs "pc").getD (Json.obj [])) with
               | .error _ => .error ()
               | .ok roots => walkRoots roots
             else .ok ()) : Except Unit Unit) with
      | .error _ => .error ()
      | .ok _ => walkItems rest
    | _ => .error ()

def logScanTarget (d : Json) : Except Unit Unit :=
  match d with
  | .obj dfs =>
    match iterVal ((getField dfs "responses").getD (Json.arr [])) with
    | .error _ => .error ()
    | .ok items => walkItems items
  | _ => .error ()

/-- The mode-specific second lookup attempt (climate.py lines 694-706). -/
def targetRetry (m : HVACMode) (d : Json) : Option Json :=
  match m with
  | .cool => findValueByPn d fr0100 ["dgc_status", "e_1002", "e_3001", "p_02"]
  | .heat => findValueByPn d fr0100 ["dgc_status", "e_1002", "e_3001", "p_03"]
  | .auto => findValueByPn d fr0100 ["dgc_status", "e_1002", "e_3001", "p_1D"]
  | _ => none

/-- First lookup by the mode's parameter name, with the mode-specific
retry when absent (climate.py lines 689-708). -/
def targetLookup (m : HVACMode) (d : Json) (name : String) : Option Json :=
  match findValueByPn d fr0100 ["dgc_status", "e_1002", "e_3001", name] with
  | some v => some v
  | none => targetRetry m d

/-- Target-temperature block of `update` (climate.py lines 684-743).
An `int` value makes `len(...)` raise; a sized non-string value whose
length is not 2 makes `int(...)` raise `TypeError` (only `ValueError` is
caught there) — either aborts the update with the fields set so far. -/
def targetStage (st : DeviceState) (d : Json) : Staged :=
  match HVAC_TO_TEMP_HEX st.hvacMode with
  | none => .ok { st with targetTemperature := none }
  | some name =>
    match targetLookup st.hvacMode d name with
    | none =>
      match logScanTarget d with
      | .error _ => .error st
      | .ok _ => .ok { st with targetTemperature := none }
    | some v =>
      match pyLen v with
      | none => .error st
      | some l =>
        if l = 2 then .ok { st with targetTemperature := hexToTemp v 2 }
        else
          match v with
          | .str s =>
            match pyIntOfString s with
            | some n => .ok { st with targetTemperature := some ((n : ℚ) / 2) }
            | none => .ok { st with targetTemperature := hexToTemp v 2 }
          | _ => .error st

/-- Current-temperature block (climate.py lines 747-751); `hex_to_temp` is
called with divisor 1 and never raises. -/
def currentStage (st : DeviceState) (d : Json) : DeviceState :=
  match findValueByPn d fr0100 ["dgc_status", "e_1002", "e_A00B", "p_01"] with
  | some v => { st with currentTemperature := hexToTemp v 1 }
  | none => { st with currentTemperature := none }

/-- p_2A interpretation (climate.py lines 785-795). -/
def p2aLevel (n : Nat) : HAFanMode :=
  if n = 0 then .auto
  else if n = 11 then .quiet
  else if n = 9 then .level5
  else if n = 3 then .level1
  else if n = 4 then .level2
  else if n = 5 then .level3
  else if n = 6 then .level4
  else if n = 7 then .level5
  else .auto

/-- Generic fan-level interpretation (climate.py lines 809-818). -/
def genericLevel (n : Int) : HAFanMode :=
  if n = 10 then .auto
  else if n = 11 then .quiet
  else if n = 7 then .level5
  else if n = 3 then .level1
  else if n = 4 then .level2
  else if n = 5 then .level3
  else if n = 6 then .level4
  else .auto

/-- The fan-value lookup with its e_3001/e_3003 fallbacks (climate.py
lines 760-771). -/
def fanLookup (d : Json) (ent key : String) : Option Json :=
  let v0 := findValueByPn d fr0100 ["dgc_status", "e_1002", ent, key]
  let v1 := match v0 with
    | some x => some x
    | none =>
      if ent = "e_3001" then findValueByPn d fr0100 ["dgc_status", "e_1002", "e_3003", key]
      else none
  match v1 with
  | some x => some x
  | none =>
    if ent = "e_3003" then findValueByPn d fr0100 ["dgc_status", "e_1002", "e_3001", key]
    else none

/-- The `else` branch at climate.py lines 802-821: `len` in the conditional
expression raises `TypeError` on an int value (only `ValueError` and
`AttributeError` are caught), aborting the update. -/
def fanElseBranch (st : DeviceState) (v : Json) : Staged :=
  match v with
  | .str s =>
    match (if s.length > 1 then (parseHexNat s).map Int.ofNat else pyIntOfString s) with
    | some n => .ok { st with fanMode := genericLevel n }
    | none => .ok { st with fanMode := .auto }
  | _ => .error st

/-- Dispatch on a present fan value (climate.py lines 777-821).  Unhashable
values (lists, dicts) make the `in REVERSE_FAN_MODE_MAP` test raise
`TypeError`, aborting the update. -/
def fanValueBranch (st : DeviceState) (key : String) (v : Json) : Staged :=
  if key = "p_2A" then
    match pyLen v with
    | none => .error st
    | some l =>
      if l ≤ 2 then
        match v with
        | .str s =>
          match parseHexNat s with
          | some n => .ok { st with fanMode := p2aLevel n }
          | none => .ok { st with fanMode := .auto }
        | _ => .error st
      else
        match v with
        | .str s =>
          match revFanLookup s with
          | some m => .ok { st with fanMode := m }
          | none => fanElseBranch st (.str s)
        | .int n => fanElseBranch st (.int n)
        | _ => .error st
  else
    match v with
    | .str s =>
      match revFanLookup s with
      | some m => .ok { st with fanMode := m }
      | none => fanElseBranch st (.str s)
    | .int n => fanElseBranch st (.int n)
    | _ => .error st

/-- Fan-mode block of `update` (climate.py lines 753-825), including the
e_3001/e_3003 fallback lookups. -/
def fanStage (st : DeviceState) (d : Json) : Staged :=
  match HVAC_MODE_TO_FAN_SPEED_ATTR_NAME st.hvacMode with
  | none => .ok { st with fanMode := .auto }
  | some key =>
    match fanLookup d ((FAN_SPEED_ENTITY_MAP key).getD "e_3001") key with
    | none => .ok { st with fanMode := .auto }
    | some fv => fanValueBranch st key fv

/-- Humidity block (climate.py lines 827-831): `int(humidity_hex, 16)` is
not wrapped, so a malformed or non-string value aborts the update. -/
def humidityStage (st : DeviceState) (d : Json) : Staged :=
  match findValueByPn d fr0100 ["dgc_status", "e_1002", "e_A00B", "p_02"] with
  | none => .ok { st with currentHumidity := none }
  | some (.str s) =>
    match parseHexNat s with
    | some n => .ok { st with currentHumidity := some (n : Int) }
    | none => .error st
  | some _ => .error st

/-- The `"F" in value` test of `get_swing_state` (climate.py lines 608-611):
substring test on strings, membership on lists and dict keys, `TypeError`
on ints. -/
def containsF : Json → Except Unit Bool
  | .str s => .ok (s.contains 'F')
  | .arr xs => .ok (xs.any fun x => match x with | .str t => t = "F" | _ => false)
  | .obj fs => .ok (fs.any fun p => p.1 = "F")
  | .int _ => .error ()

/-- `DaikinClimate.get_swing_state` (climate.py lines 585-627). -/
def getSwingState (st : DeviceState) (d : Json) : Except Unit SwingMode := do
  match HVAC_MODE_TO_SWING_ATTR_NAMES st.hvacMode with
  | none => .error ()
  | some (vName, hName) =>
    let vv0 := findValueByPn d fr0100 ["dgc_status", "e_1002", "e_3001", vName]
    let hv0 := findValueByPn d fr0100 ["dgc_status", "e_1002", "e_3001", hName]
    let vv1 := match vv0 with
      | some x => some x
      | none => findValueByPn d fr0100 ["dgc_status", "e_1002", "e_3003", vName]
    let hv1 := match hv0 with
      | some x => some x
      | none => findValueByPn d fr0100 ["dgc_status", "e_1002", "e_3003", hName]
    let vv2 := match vv1 with
      | some x => some x
      | none => findValueByPn d fr0100 ["dgc_status", "e_1002", "e_3001", "p_20"]
    let hv2 := match hv1 with
      | some x => some x
      | none => findValueByPn d fr0100 ["dgc_status", "e_1002", "e_3001", "p_21"]
    let vert ← match vv2 with
      | none => pure false
      | some x => containsF x
    let horiz ← match hv2 with
      | none => pure false
      | some x => containsF x
    if horiz && vert then pure .both
    else if horiz then pure .horizontal
    else if vert then pure .vertical
    else pure .off

/-- Swing block of `update` (climate.py lines 833-834), skipped when the
freshly assigned HVAC mode is OFF. -/
def swingStage (st : DeviceState) (d : Json) : Staged :=
  if st.hvacMode = .off then .ok st
  else
    match getSwingState st d with
    | .error _ => .error st
    | .ok sm => .ok { st with swingMode := sm }

/-- Energy/runtime block (climate.py lines 836-865).  The whole block sits
in its own `try`, whose handler zeroes both fields, so it never aborts the
update; the runtime conversion additionally has an inner
`except (ValueError, TypeError)` that falls back to 0. -/
def energyParse : Option Json → Except Unit Int
  | some (.arr xs) =>
    if xs.length > 0 then
      match xs.getLast? with
      | some (.int n) => .ok n
      | some (.str s) =>
        match pyIntOfString s with
        | some n => .ok n
        | none => .error ()
      | some _ => .error ()
      | none => .error ()
    else .ok 0
  | some (.int n) => .ok n
  | some _ => .ok 0
  | none => .ok 0

def runtimeParse : Option Json → Int
  | some (.int n) => n
  | some (.str s) => (pyIntOfString s).getD 0
  | some _ => 0
  | none => 0

def energyRuntimeStage (st : DeviceState) (d : Json) : DeviceState :=
  match energyParse (findValueByPn d frWeek ["week_power", "datas"]) with
  | .error _ => { st with energyToday := 0, runtimeToday := 0 }
  | .ok e =>
    { st with
        energyToday := e
        runtimeToday := runtimeParse (findValueByPn d frWeek ["week_power", "today_runtime"]) }

/-- Body of `DaikinClimate.update`'s `try` after a successful fetch
(climate.py lines 674-865): blocks run in source order; an uncaught
exception in one of them stops the chain, the outer `except` logs it, and
the fields assigned so far keep their new values while the rest keep their
old ones. -/
def updateFromData (st0 : DeviceState) (d : Json) : DeviceState :=
  match hvacStage st0 d with
  | .error s => s
  | .ok s1 =>
    let s2 := outsideStage s1 d
    match targetStage s2 d with
    | .error s => s
    | .ok s3 =>
      let s4 := currentStage s3 d
      match fanStage s4 d with
      | .error s => s
      | .ok s5 =>
        match humidityStage s5 d with
        | .error s => s
        | .ok s6 =>
          match swingStage s6 d with
          | .error s => s
          | .ok s7 => energyRuntimeStage s7 d

/-- `DaikinClimate.update` (climate.py lines 659-868).  Every exception,
transport-level ones included, is caught by the outer `except`, which only
logs; a transport failure happens before any assignment, so the previous
state is returned unchanged and nothing is raised to the caller. -/
def DaikinClimate.update (st : DeviceState) (f : Fetch) : DeviceState :=
  match f with
  | .ok d => updateFromData st d
  | _ => st

/-- `DaikinAttribute` (climate.py lines 24-32); the values actually passed
are encoded strings.  The source's field `to` is spelled `to_` here
because `to` is a reserved token in Lean. -/
structure DaikinAttribute where
  name : String
  value : String
  path : List String
  to_ : String
deriving DecidableEq, Repr

/-- A node of the request tree as built by `DaikinRequest.serialize`: either
`{"pn": ..., "pch": [...]}` or a terminal `{"pn": ..., "pv": ...}` (the
shape produced by `DaikinAttribute.format`). -/
inductive DNode where
  | branch (pn : String) (pch : List DNode)
  | leaf (pn : String) (pv : String)
deriving Repr

def DNode.pn : DNode → String
  | .branch p _ => p
  | .leaf p _ => p

/-- One element of the serialized `requests` array:
`{'op': 3, 'pc': {...}, 'to': ...}`. -/
structure DRequest where
  op : Nat
  pc : DNode
  to_ : String
deriving Repr

/-- The per-segment descent of `DaikinRequest.serialize` (climate.py lines
146-151).  Faithful to the source's bug: after looking a segment up with
`get_existing_index`, the code always descends into `entry[-1]['pch']`,
the LAST child, not the one at the found index; and if that last child is
a terminal `{"pn","pv"}` node the `['pch']` access raises `KeyError`
(`none`). -/
def insertPath : List DNode → List String → String → String → Option (List DNode)
  | entry, [], n, v => some (entry ++ [DNode.leaf n v])
  | entry, pn :: rest, n, v =>
    let entry1 := if entry.any (fun c => c.pn = pn) then entry
                  else entry ++ [DNode.branch pn []]
    match entry1.getLast? with
    | some (DNode.branch lp lch) =>
      (insertPath lch rest n v).map fun lch2 => entry1.dropLast ++ [DNode.branch lp lch2]
    | some (DNode.leaf _ _) => none
    | none => none

/-- Processing of one attribute inside `DaikinRequest.serialize` (climate.py
lines 133-151): find the first request entry with the same `to`
(`get_existing_to`), appending a fresh `{'op': 3, 'pc': {'pn':
'dgc_status', 'pch': []}, 'to': ...}` entry when there is none, then
descend by the attribute's path and append the terminal node. -/
def serializeStep (reqs : List DRequest) (a : DaikinAttribute) : Option (List DRequest) :=
  match reqs.findIdx? (fun r => r.to_ = a.to_) with
  | some i =>
    match reqs[i]? with
    | some r =>
      match r.pc with
      | .branch pcn pch =>
        (insertPath pch a.path a.name a.value).map fun pch2 =>
          reqs.set i { r with pc := .branch pcn pch2 }
      | .leaf _ _ => none
    | none => none
  | none =>
    (insertPath [] a.path a.name a.value).map fun pch2 =>
      reqs ++ [{ op := 3, pc := .branch "dgc_status" pch2, to_ := a.to_ }]

/-- `DaikinRequest.serialize` (climate.py lines 110-152) called with the
default empty payload; `none` models an uncaught `KeyError` during the
descent. -/
def DaikinRequest.serialize (attrs : List DaikinAttribute) : Option (List DRequest) :=
  attrs.foldlM serializeStep []

/-- `response['responses'][0]['rsc']` (climate.py line 568); `none` models
any raised `KeyError`/`IndexError`/`TypeError` on the way (which the
caller does not catch either, so both channels are a raised exception). -/
def firstRsc (resp : Json) : Option Json :=
  match resp with
  | .obj fs =>
    match getField fs "responses" with
    | some (.arr (r :: _)) =>
      match r with
      | .obj rfs => getField rfs "rsc"
      | _ => none
    | _ => none
  | _ => none

/-- `DaikinClimate.update_attribute` (climate.py lines 564-571): the only
accepted outcome is a first response entry with `rsc == 2004`; every other
response — including read-ack 2000 and rejected-value 4000 — raises the
same generic `Exception`.  On success `self.update()` runs, modelled by
the `f : Fetch` parameter.  `resp` is the JSON body the device returned
for the PUT. -/
def DaikinClimate.updateAttribute (st : DeviceState) (resp : Json) (f : Fetch) :
    Except Json DeviceState :=
  match firstRsc resp with
  | some (.int 2004) => .ok (DaikinClimate.update st f)
  | _ => .error resp

/-- `format(int(temperature * 2), '02x')` (climate.py line 548). -/
def tempHex (t : ℚ) : String := format02x (pyTrunc (2 * t))

/-- The attribute built by `set_temperature` (climate.py line 552). -/
def tempAttr (name : String) (t : ℚ) : DaikinAttribute :=
  { name := name, value := tempHex t, path := ["e_1002", "e_3001"],
    to_ := "/dsiot/edge/adr_0100.dgc_status" }

/-- The request document `set_temperature` sends for a mode whose
temperature parameter is `name` (what `DaikinRequest([temp_attr])
.serialize()` produces). -/
def tempPayload (name : String) (t : ℚ) : List DRequest :=
  [{ op := 3,
     pc := .branch "dgc_status"
       [.branch "e_1002" [.branch "e_3001" [.leaf name (tempHex t)]]],
     to_ := "/dsiot/edge/adr_0100.dgc_status" }]

/-- Observable outcome of `DaikinClimate.set_temperature`. -/
inductive TempResult where
  | noParam
  | raised
  | committed (st : DeviceState)
deriving DecidableEq, Repr

/-- `DaikinClimate.set_temperature` (climate.py lines 541-562).  `dev` maps
the serialized PUT body to the device's JSON response.  There is no retry,
no search and no adjustment record: a mode without a temperature parameter
returns immediately (`noParam`, no device call, no state change); any
response other than `rsc == 2004` raises out of `update_attribute`
(`raised`, target unchanged); on success the entity refreshes via
`update()` and then overwrites the target with the requested value. -/
def DaikinClimate.setTemperature (st : DeviceState) (dev : List DRequest → Json)
    (f : Fetch) (t : ℚ) : TempResult :=
  match HVAC_TO_TEMP_HEX st.hvacMode with
  | none => .noParam
  | some name =>
    match DaikinRequest.serialize [tempAttr name t] with
    | none => .raised
    | some payload =>
      match DaikinClimate.updateAttribute st (dev payload) f with
      | .error _ => .raised
      | .ok st2 => .committed { st2 with targetTemperature := some t }

/-- Observable outcome of `DaikinClimate.set_fan_mode`: `noCall` means the
method returned without any device interaction, carrying the (possibly
changed) entity state. -/
inductive FanResult where
  | noCall (st : DeviceState)
  | raised
  | done (st : DeviceState)
deriving DecidableEq, Repr

/-- The e_3003 fan value chain (climate.py lines 286-295). -/
def e3003FanValue : HAFanMode → String
  | .auto => "00"
  | .quiet => "0B"
  | .level5 => "09"
  | .level1 => "03"
  | .level2 => "04"
  | .level3 => "05"
  | .level4 => "06"

/-- `DaikinClimate.set_fan_mode` (climate.py lines 268-303).  When the
current HVAC mode has no fan-speed parameter (DRY, OFF) the `else` branch
runs: no device call, but `self._fan_mode` is assigned `FAN_AUTO`. -/
def DaikinClimate.setFanMode (st : DeviceState) (dev : List DRequest → Json)
    (f : Fetch) (fm : HAFanMode) : FanResult :=
  match HVAC_MODE_TO_FAN_SPEED_ATTR_NAME st.hvacMode with
  | none => .noCall { st with fanMode := .auto }
  | some name =>
    let ent := (FAN_SPEED_ENTITY_MAP name).getD "e_3001"
    let attrs : List DaikinAttribute :=
      if ent = "e_3001" then
        [{ name := name, value := FAN_MODE_MAP fm, path := ["e_1002", "e_3001"],
           to_ := "/dsiot/edge/adr_0100.dgc_status" }]
      else if ent = "e_3003" then
        [{ name := name, value := e3003FanValue fm, path := ["e_1002", "e_3003"],
           to_ := "/dsiot/edge/adr_0100.dgc_status" }]
      else []
    match DaikinRequest.serialize attrs with
    | none => .raised
    | some payload =>
      match DaikinClimate.updateAttribute st (dev payload) f with
      | .error _ => .raised
      | .ok st2 => .done st2

/-- Which identity `initialize_unique_id` ends up with. -/
inductive UniqueId where
  | fromMac (raw : Json)
  | fallback (id : String)
deriving Repr

/-- `f"daikin_{self._ip_address.replace('.', '_')}"` (climate.py line 231). -/
def pseudoId (ip : String) : String := "daikin_" ++ ip.replace "." "_"

/-- `DaikinClimate.initialize_unique_id` (climate.py lines 215-235): on a
successful POST the MAC is looked up with
`find_value_by_pn(data, "/dsiot/edge.adp_i", "adp_i", "mac")`; a `None`
result or any transport failure selects the IP-derived pseudo-id.
(`format_mac` is host-framework code; the `fromMac` constructor records
the branch and raw value instead of reimplementing it.) -/
def DaikinClimate.initializeUniqueId (ip : String) (f : Fetch) : UniqueId :=
  match f with
  | .ok data =>
    match findValueByPn data "/dsiot/edge.adp_i" ["adp_i", "mac"] with
    | some v => .fromMac v
    | none => .fallback (pseudoId ip)
  | _ => .fallback (pseudoId ip)

/-- The dictionary `DaikinDataUpdateCoordinator._async_update_data` returns
(__init__.py lines 135-145). -/
structure Snapshot where
  currentTemperature : Option ℚ
  outsideTemperature : Option ℚ
  currentHumidity : Option Int
  hvacMode : HVACMode
  fanMode : HAFanMode
  swingMode : SwingMode
  energyToday : Int
  runtimeToday : Int
  targetTemperature : Option ℚ
deriving DecidableEq, Repr

def snapshotOf (st : DeviceState) : Snapshot :=
  { currentTemperature := st.currentTemperature,
    outsideTemperature := st.outsideTemperature,
    currentHumidity := st.currentHumidity,
    hvacMode := st.hvacMode, fanMode := st.fanMode, swingMode := st.swingMode,
    energyToday := st.energyToday, runtimeToday := st.runtimeToday,
    targetTemperature := st.targetTemperature }

/-- `DaikinDataUpdateCoordinator._async_update_data` (__init__.py lines
131-147): it would raise `UpdateFailed` (`.error`) if `update` raised, but
`DaikinClimate.update` catches every exception internally and returns
normally, so the coordinator always reports success. -/
def DaikinDataUpdateCoordinator.asyncUpdateData (st : DeviceState) (f : Fetch) :
    Except String Snapshot :=
  .ok (snapshotOf (DaikinClimate.update st f))

/-- Shorthand for a terminal `{"pn": ..., "pv": "..."}` response node. -/
def leafJ (pn pv : String) : Json :=
  Json.obj [("pn", Json.str pn), ("pv", Json.str pv)]

/-- Shorthand for a `{"pn": ..., "pch": [...]}` response node. -/
def nodeJ (pn : String) (ch : List Json) : Json :=
  Json.obj [("pn", Json.str pn), ("pch", Json.arr ch)]

/-- Shorthand for a `{"fr": ..., "rsc": 2000, "pc": ...}` response entry. -/
def respJ (fr : String) (pc : Json) : Json :=
  Json.obj [("fr", Json.str fr), ("rsc", Json.int 2000), ("pc", pc)]

/-- A full status-tree response document: power on ("01"), mode hex "0200"
(cool), indoor temperature hex "18" at e_A00B/p_01, target temperature hex
"2C" at e_3001/p_02, humidity hex "32", outdoor hex "30", and a week_power
tree. -/
def fixtureC6 : Json := Json.obj [("responses", Json.arr [
  respJ fr0100 (nodeJ "dgc_status" [nodeJ "e_1002" [
    nodeJ "e_A002" [leafJ "p_01" "01"],
    nodeJ "e_3001" [leafJ "p_01" "0200", leafJ "p_02" "2C", leafJ "p_09" "0A00"],
    nodeJ "e_A00B" [leafJ "p_01" "18", leafJ "p_02" "32"]]]),
  respJ fr0200 (nodeJ "dgc_status" [nodeJ "e_1003" [nodeJ "e_A00D" [leafJ "p_01" "30"]]]),
  respJ frWeek (Json.obj [("pn", Json.str "week_power"), ("pch", Json.arr [
    Json.obj [("pn", Json.str "datas"),
              ("pv", Json.arr [Json.int 100, Json.int 250])],
    Json.obj [("pn", Json.str "today_runtime"), ("pv", Json.str "52")]])])])]

/-- A well-formed `/dsiot/edge.adp_i` identity response in which the node
`adp_i → mac` is present with a `pv`, exactly the shape
`initialize_unique_id` queries. -/
def macDoc : Json := Json.obj [("responses", Json.arr [
  Json.obj [("fr", Json.str "/dsiot/edge.adp_i"), ("rsc", Json.int 2000),
    ("pc", Json.obj [("pn", Json.str "adp_i"),
      ("pch", Json.arr [leafJ "mac" "A412422AABBC"])])]])]

/-- A status-tree document with power on ("01") whose mode node carries an
unhashable pv (a JSON list): decoding it reaches
`MODE_MAP.get(mode_value, HVACMode.OFF)` with a list key. -/
def badModeDoc : Json := Json.obj [("responses", Json.arr [
  respJ fr0100 (nodeJ "dgc_status" [nodeJ "e_1002" [
    nodeJ "e_A002" [leafJ "p_01" "01"],
    nodeJ "e_3001" [Json.obj [("pn", Json.str "p_01"), ("pv", Json.arr [])]]]])])]

/-- A PUT response whose only entry has the write-ack code 2004. -/
def okResp : Json :=
  Json.obj [("responses", Json.arr [Json.obj [("fr", Json.str fr0100), ("rsc", Json.int 2004)]])]

/-- A PUT response whose only entry has the rejected-value code 4000. -/
def rejResp : Json :=
  Json.obj [("responses", Json.arr [Json.obj [("fr", Json.str fr0100), ("rsc", Json.int 4000)]])]

/-- A PUT response whose only entry has the read-ack code 2000. -/
def resp2000 : Json :=
  Json.obj [("responses", Json.arr [Json.obj [("fr", Json.str fr0100), ("rsc", Json.int 2000)]])]

/-- The terminal value of a single-leaf temperature write request. -/
def reqLeafPv (r : DRequest) : Option String :=
  match r.pc with
  | .branch _ [DNode.branch _ [DNode.branch _ [DNode.leaf _ pv]]] => some pv
  | _ => none

/-- A simulated device that accepts (2004) exactly those single writes whose
encoded value is "2d" (i.e. 22.5 °C) and answers the rejected-value code
4000 to everything else. -/
def pickyDevice (reqs : List DRequest) : Json :=
  match reqs with
  | [r] => if reqLeafPv r = some "2d" then okResp else rejResp
  | _ => rejResp

/-- Entity state in COOL mode. -/
def stCool : DeviceState := { initState with hvacMode := .cool }

/-- Entity state in DRY mode with a non-AUTO fan mode. -/
def stDry : DeviceState := { initState with hvacMode := .dry, fanMode := .quiet }

/-- A fully populated entity state, used to observe field retention. -/
def stSample : DeviceState :=
  { hvacMode := .cool, fanMode := .level2, swingMode := .vertical,
    outsideTemperature := some 30, targetTemperature := some (45/2),
    currentTemperature := some 24, currentHumidity := some 50,
    runtimeToday := 52, energyToday := 250 }

/-- Three writes to one endpoint whose paths interleave: `a`, then `b`,
then `a` again. -/
def c2attrs : List DaikinAttribute :=
  [{ name := "n1", value := "v1", path := ["a"], to_ := "T" },
   { name := "n2", value := "v2", path := ["b"], to_ := "T" },
   { name := "n3", value := "v3", path := ["a"], to_ := "T" }]

/-- Does the document contain a response entry whose `fr` equals the given
endpoint (with `responses` present and a list)?  Used to state that
`find_value_by_pn` yields an absent value whenever this fails. -/
def hasMatchingResponse (d : Json) (fr : String) : Bool :=
  match d with
  | .obj dfs =>
    match getField dfs "responses" with
    | some (.arr rs) => rs.any (matchesFr fr)
    | _ => false
  | _ => false

theorem filter_nil_of_any_false {α : Type} (p : α → Bool) (l : List α)
    (h : l.any p = false) : l.filter p = [] := by
  induction l with
  | nil => rfl
  | cons x xs ih =>
    simp only [List.any_cons, Bool.or_eq_false_iff] at h
    simp [List.filter_cons, h.1, ih h.2]

theorem locate_eq_none (d : Json) (fr : String)
    (h : hasMatchingResponse d fr = false) : locate d fr = none := by
  cases d with
  | str s => rfl
  | int n => rfl
  | arr xs => rfl
  | obj dfs =>
    unfold hasMatchingResponse at h
    unfold locate
    cases hg : getField dfs "responses" with
    | none => simp [hg]
    | some resps =>
      simp only [hg] at h ⊢
      cases resps with
      | str s =>
        by_cases hs : s.isEmpty <;> simp [iterVal, hs]
      | int n => rfl
      | obj fs => cases fs with
        | nil => simp [iterVal]
        | cons f rest => rfl
      | arr rs =>
        simp only [iterVal]
        rw [filter_nil_of_any_false (matchesFr fr) rs h]
        split <;> rfl

theorem specialCases_adp_short (pc : Json) :
    specialCases "/dsiot/edge.adp_i" pc ["mac"] = none := rfl

theorem specialCases_adp_long (pc : Json) :
    specialCases "/dsiot/edge.adp_i" pc ["adp_i", "mac"] = none := rfl

theorem findInPc_adp (pc : Json) :
    findInPc "/dsiot/edge.adp_i" pc ["adp_i", "mac"] = none := by
  unfold findInPc
  cases pc with
  | obj pfs =>
    by_cases hp : pnIsStr pfs "adp_i" <;>
      simp [hp, specialCases_adp_short, specialCases_adp_long]
  | str s => rfl
  | int n => rfl
  | arr xs => rfl

/-- No document can make the MAC lookup succeed: the key list
`["adp_i", "mac"]` triggers none of `find_value_by_pn`'s special-case
blocks, so the function falls through to its final `return None`. -/
theorem find_adp_mac_none (d : Json) :
    findValueByPn d "/dsiot/edge.adp_i" ["adp_i", "mac"] = none := by
  unfold findValueByPn
  cases hl : locate d "/dsiot/edge.adp_i" with
  | none => rfl
  | some r =>
    cases r with
    | obj rfs => exact findInPc_adp _
    | str s => rfl
    | int n => rfl
    | arr xs => rfl

/-- C2 (code_bug evaluation): serializing three writes to one endpoint with
paths `a`, `b`, `a` puts the third write's terminal node under branch `b`,
not under the matching branch `a`: `get_existing_index` finds `a` at index
0, but the code then descends into `entry[-1]['pch']`, the last child. -/
theorem c2_theorem :
    DaikinRequest.serialize c2attrs = some
      [{ op := 3,
         pc := DNode.branch "dgc_status"
           [DNode.branch "a" [DNode.leaf "n1" "v1"],
            DNode.branch "b" [DNode.leaf "n2" "v2", DNode.leaf "n3" "v3"]],
         to_ := "T" }] := rfl

/-- C4 (counterexample): a document with no `responses` key at all is not a
hard error — `find_value_by_pn` returns an absent value for it, because
the `'responses' not in data` guard returns `None` before anything can
raise. -/
theorem c4_counterexample :
    findValueByPn (Json.obj [("foo", Json.int 1)]) fr0100
      ["dgc_status", "e_1002", "e_A002", "p_01"] = none := rfl

/-- C4 (amended): `find_value_by_pn` returns an absent value and never
raises whenever the document has no response entry matching the requested
endpoint — including a document whose `responses` key is missing
entirely, malformed (not a list of dicts), or an empty object; the
function's `try/except` also converts every shape mismatch to `None`, so
no input is a hard error. -/
theorem c4_amended (d : Json) (fr : String) (keys : List String)
    (h : hasMatchingResponse d fr = false) :
    findValueByPn d fr keys = none := by
  unfold findValueByPn
  rw [locate_eq_none d fr h]

/-- Witness for c4_amended at a concrete input. -/
theorem c4_amended_witness :
    hasMatchingResponse (Json.obj []) fr0100 = false ∧
      findValueByPn (Json.obj []) fr0100 ["dgc_status", "e_1002", "e_A002", "p_01"] = none :=
  ⟨rfl, c4_amended (Json.obj []) fr0100 ["dgc_status", "e_1002", "e_A002", "p_01"] rfl⟩

/-- C5 (counterexample): a well-formed `/dsiot/edge.adp_i` response in which
the node `adp_i → mac` is reachable by matching `pn` through nested `pch`
lists still decodes to an absent value (none of the hard-coded special
cases covers this path), so `initialize_unique_id` takes the IP-derived
fallback even though the MAC is present. -/
theorem c5_counterexample :
    findValueByPn macDoc "/dsiot/edge.adp_i" ["adp_i", "mac"] = none ∧
      DaikinClimate.initializeUniqueId "10.0.0.2" (Fetch.ok macDoc) =
        .fallback "daikin_10_0_0_2" :=
  ⟨rfl, by with_unfolding_all rfl⟩

/-- C5 (amended): `find_value_by_pn` only implements hard-coded
special-case lookups; the `adp_i → mac` path is not among them, so for
EVERY fetched document the MAC lookup yields an absent value and
`initialize_unique_id` always resolves to the IP-derived pseudo-id. -/
theorem c5_amended (ip : String) (f : Fetch) :
    DaikinClimate.initializeUniqueId ip f = .fallback (pseudoId ip) := by
  cases f with
  | ok d => simp [DaikinClimate.initializeUniqueId, find_adp_mac_none d]
  | connError => rfl
  | httpError n => rfl
  | badJson => rfl

/-- C7 (counterexample): at 22.3 °C the code sends
`format(int(22.3 * 2), '02x') = "2c"` (truncation), while the claimed
`round(value * 2)` gives 45, i.e. `"2d"`. -/
theorem c7_counterexample :
    tempHex (223/10) = "2c" ∧
      format02x (round ((2 : ℚ) * (223/10))) = "2d" ∧
      tempHex (223/10) ≠ format02x (round ((2 : ℚ) * (223/10))) := by
  with_unfolding_all decide

/-- C7 (amended): for every requested setpoint, `set_temperature` serializes
a single request whose terminal node carries
`format(int(value * 2), '02x')` — truncation toward zero, not rounding —
as the encoded value. -/
theorem c7_amended (name : String) (t : ℚ) :
    DaikinRequest.serialize [tempAttr name t] = some
      [{ op := 3,
         pc := DNode.branch "dgc_status"
           [DNode.branch "e_1002" [DNode.branch "e_3001"
             [DNode.leaf name (format02x (pyTrunc (2 * t)))]]],
         to_ := "/dsiot/edge/adr_0100.dgc_status" }] := rfl

theorem serialize_tempAttr (name : String) (t : ℚ) :
    DaikinRequest.serialize [tempAttr name t] = some (tempPayload name t) := rfl

/-- Shared characterization of `set_temperature` in a mode with a
temperature parameter: one write, accepted only on `rsc = 2004`. -/
theorem setTemp_spec (st : DeviceState) (dev : List DRequest → Json) (f : Fetch)
    (t : ℚ) (name : String) (h : HVAC_TO_TEMP_HEX st.hvacMode = some name) :
    (firstRsc (dev (tempPayload name t)) = some (Json.int 2004) →
        DaikinClimate.setTemperature st dev f t =
          .committed { DaikinClimate.update st f with targetTemperature := some t }) ∧
      (firstRsc (dev (tempPayload name t)) ≠ some (Json.int 2004) →
        DaikinClimate.setTemperature st dev f t = .raised) := by
  unfold DaikinClimate.setTemperature
  rw [h]
  constructor
  · intro hr
    simp only [serialize_tempAttr]
    simp [DaikinClimate.updateAttribute, hr]
  · intro hr
    simp only [serialize_tempAttr]
    cases hu : DaikinClimate.updateAttribute st (dev (tempPayload name t)) f with
    | error e => rfl
    | ok st2 =>
      exfalso
      unfold DaikinClimate.updateAttribute at hu
      split at hu
      · exact hr (by assumption)
      · exact absurd hu (by simp)

/-- C1 (counterexample): requesting 22.3 °C against a device that accepts
only 22.5 °C (hex "2d") does not negotiate: the single write sends "2c",
the device answers the rejected-value code 4000, and `set_temperature`
raises with the target unchanged — no nearby value is probed and no
adjustment record exists.  The same device accepts a direct 22.5 °C
request, confirming that the claimed search would have had a value to
find. -/
theorem c1_counterexample :
    DaikinClimate.setTemperature stCool pickyDevice (Fetch.ok (Json.obj [])) (223/10) =
      .raised ∧
      DaikinClimate.setTemperature stCool pickyDevice (Fetch.ok (Json.obj [])) (45/2) =
        .committed { DaikinClimate.update stCool (Fetch.ok (Json.obj [])) with
                       targetTemperature := some (45/2) } := by
  have h1 : tempHex (223/10 : ℚ) = "2c" := by with_unfolding_all decide
  have h2 : tempHex (45/2 : ℚ) = "2d" := by with_unfolding_all decide
  have hp1 : pickyDevice (tempPayload "p_02" (223/10)) = rejResp := by
    simp only [tempPayload, tempAttr, h1]; rfl
  have hp2 : pickyDevice (tempPayload "p_02" (45/2)) = okResp := by
    simp only [tempPayload, tempAttr, h2]; rfl
  constructor
  · refine (setTemp_spec stCool pickyDevice (Fetch.ok (Json.obj [])) (223/10) "p_02" rfl).2 ?_
    rw [hp1]
    simp [firstRsc, rejResp, getField]
  · refine (setTemp_spec stCool pickyDevice (Fetch.ok (Json.obj [])) (45/2) "p_02" rfl).1 ?_
    rw [hp2]
    rfl

/-- C1 (amended): `set_temperature` makes exactly one write attempt with the
encoded requested value; if the first response entry's `rsc` is 2004 it
refreshes and commits the requested value as the target, and on ANY other
response — the rejected-value code 4000 included — it raises without
committing anything; there is no nearest-value search and no adjustment
record. -/
theorem c1_amended (st : DeviceState) (dev : List DRequest → Json) (f : Fetch)
    (t : ℚ) (name : String) (h : HVAC_TO_TEMP_HEX st.hvacMode = some name) :
    (firstRsc (dev (tempPayload name t)) = some (Json.int 2004) →
        DaikinClimate.setTemperature st dev f t =
          .committed { DaikinClimate.update st f with targetTemperature := some t }) ∧
      (firstRsc (dev (tempPayload name t)) ≠ some (Json.int 2004) →
        DaikinClimate.setTemperature st dev f t = .raised) :=
  setTemp_spec st dev f t name h

/-- Witness for c1_amended: an always-accepting device commits 22.5 °C. -/
theorem c1_amended_witness :
    HVAC_TO_TEMP_HEX stCool.hvacMode = some "p_02" ∧
      DaikinClimate.setTemperature stCool (fun _ => okResp) Fetch.connError (45/2) =
        .committed { DaikinClimate.update stCool Fetch.connError with
                       targetTemperature := some (45/2) } :=
  ⟨rfl, (c1_amended stCool (fun _ => okResp) Fetch.connError (45/2) "p_02" rfl).1 rfl⟩

/-- C3 (counterexample): after a write, a response whose only entry carries
`rsc = 2000` — a claimed success code — raises the same generic error as
one carrying the rejected-value code 4000; neither is classified
differently from any other non-2004 code. -/
theorem c3_counterexample :
    DaikinClimate.updateAttribute initState resp2000 Fetch.connError = .error resp2000 ∧
      DaikinClimate.updateAttribute initState rejResp Fetch.connError = .error rejResp :=
  ⟨rfl, rfl⟩

/-- C3 (amended): write validation checks only the first response entry and
accepts exactly `rsc = 2004`; every other value (2000 and 4000 included)
and every malformed response raises one and the same generic error, with
no distinguishable rejected-value outcome. -/
theorem c3_amended (st : DeviceState) (resp : Json) (f : Fetch) :
    DaikinClimate.updateAttribute st resp f = .ok (DaikinClimate.update st f) ↔
      firstRsc resp = some (Json.int 2004) := by
  constructor
  · intro h
    unfold DaikinClimate.updateAttribute at h
    split at h
    · assumption
    · exact absurd h (by simp)
  · intro h
    simp [DaikinClimate.updateAttribute, h]

/-- Witness for c3_amended at the write-ack response. -/
theorem c3_amended_witness :
    DaikinClimate.updateAttribute initState okResp Fetch.connError =
      .ok (DaikinClimate.update initState Fetch.connError) :=
  (c3_amended initState okResp Fetch.connError).mpr rfl

/-- C8 (counterexample): setting a fan speed in DRY mode makes no device
call, but it is not free of state change: the stored fan mode is
overwritten with AUTO although it was QUIET. -/
theorem c8_counterexample :
    DaikinClimate.setFanMode stDry (fun _ => okResp) Fetch.connError .level3 =
      .noCall { stDry with fanMode := .auto } ∧
      { stDry with fanMode := HAFanMode.auto } ≠ stDry := by
  exact ⟨rfl, by decide⟩

/-- C8 (amended): in a mode with no temperature parameter `set_temperature`
returns before any device call with no state change; in a mode with no
fan-speed parameter (DRY, OFF) `set_fan_mode` makes no device call but
sets the stored fan mode to AUTO. -/
theorem c8_amended (st : DeviceState) (dev : List DRequest → Json) (f : Fetch)
    (t : ℚ) (fm : HAFanMode) :
    (HVAC_TO_TEMP_HEX st.hvacMode = none →
        DaikinClimate.setTemperature st dev f t = .noParam) ∧
      (HVAC_MODE_TO_FAN_SPEED_ATTR_NAME st.hvacMode = none →
        DaikinClimate.setFanMode st dev f fm = .noCall { st with fanMode := .auto }) := by
  constructor <;> intro h
  · simp [DaikinClimate.setTemperature, h]
  · simp [DaikinClimate.setFanMode, h]

/-- Witness for c8_amended in DRY mode. -/
theorem c8_amended_witness :
    DaikinClimate.setTemperature stDry (fun _ => okResp) Fetch.connError 25 = .noParam ∧
      DaikinClimate.setFanMode stDry (fun _ => okResp) Fetch.connError .level3 =
        .noCall { stDry with fanMode := .auto } :=
  ⟨(c8_amended stDry (fun _ => okResp) Fetch.connError 25 .level3).1 rfl,
   (c8_amended stDry (fun _ => okResp) Fetch.connError 25 .level3).2 rfl⟩

/-- C9 (counterexample): on a transport failure the state is indeed left
untouched, but the failure is NOT surfaced to the polling caller: `update`
catches and logs it, so the coordinator reports a successful refresh with
the stale snapshot instead of raising `UpdateFailed`. -/
theorem c9_counterexample :
    DaikinClimate.update stSample Fetch.connError = stSample ∧
      DaikinDataUpdateCoordinator.asyncUpdateData stSample Fetch.badJson =
        .ok (snapshotOf stSample) :=
  ⟨rfl, rfl⟩

/-- C9 (amended): a transport-level failure (connection error, non-2xx
status, malformed JSON) aborts the cycle before any mutation, so every
DeviceState field keeps its previous value; but because `update` swallows
the exception, the coordinator's `UpdateFailed` path is unreachable and
the poll is reported as a success carrying the stale state. -/
theorem c9_amended (st : DeviceState) (f : Fetch) (h : f.isFailure = true) :
    DaikinClimate.update st f = st ∧
      DaikinDataUpdateCoordinator.asyncUpdateData st f = .ok (snapshotOf st) := by
  cases f with
  | ok d => exact absurd h (by simp [Fetch.isFailure])
  | connError => exact ⟨rfl, rfl⟩
  | httpError n => exact ⟨rfl, rfl⟩
  | badJson => exact ⟨rfl, rfl⟩

/-- Witness for c9_amended at a non-2xx HTTP status. -/
theorem c9_amended_witness :
    DaikinClimate.update stSample (Fetch.httpError 500) = stSample ∧
      DaikinDataUpdateCoordinator.asyncUpdateData stSample (Fetch.httpError 500) =
        .ok (snapshotOf stSample) :=
  c9_amended stSample (Fetch.httpError 500) rfl

/-- C6: on the full status-tree fixture (power "01", mode "0200", indoor
temperature "18", target temperature "2C" at p_02) the refresh yields
hvacMode COOL, currentTemperature 24 (divisor 1) and targetTemperature
22.0 (divisor 2); `hex_to_temp` applies whatever divisor its caller
passes — the same hex "18" decodes to 24 with divisor 1 and to 12 with
divisor 2, so the divisor is a per-field property, not inferred from the
value. -/
theorem c6_theorem :
    (DaikinClimate.update initState (Fetch.ok fixtureC6)).hvacMode = HVACMode.cool ∧
      (DaikinClimate.update initState (Fetch.ok fixtureC6)).currentTemperature = some 24 ∧
      (DaikinClimate.update initState (Fetch.ok fixtureC6)).targetTemperature = some 22 ∧
      hexToTemp (Json.str "18") 1 = some 24 ∧
      hexToTemp (Json.str "18") 2 = some 12 ∧
      hexToTemp (Json.str "2C") 2 = some 22 := by
  with_unfolding_all decide

theorem outsideStage_hvac (s : DeviceState) (d : Json) :
    (outsideStage s d).hvacMode = s.hvacMode := rfl

theorem currentStage_hvac (s : DeviceState) (d : Json) :
    (currentStage s d).hvacMode = s.hvacMode := by
  unfold currentStage
  split <;> rfl

theorem targetStage_hvac (s : DeviceState) (d : Json) (x : DeviceState) :
    (targetStage s d = .ok x → x.hvacMode = s.hvacMode) ∧
      (targetStage s d = .error x → x.hvacMode = s.hvacMode) := by
  constructor <;> intro h <;>
    (unfold targetStage at h
     repeat' split at h) <;>
    first
      | ((cases h <;> simp_all); done)
      | (simp_all; done)

theorem fanElseBranch_hvac (s : DeviceState) (v : Json) (x : DeviceState) :
    (fanElseBranch s v = .ok x → x.hvacMode = s.hvacMode) ∧
      (fanElseBranch s v = .error x → x.hvacMode = s.hvacMode) := by
  constructor <;> intro h <;>
    (unfold fanElseBranch at h
     repeat' split at h) <;>
    first
      | ((cases h <;> simp_all); done)
      | (simp_all; done)

theorem fanValueBranch_hvac (s : DeviceState) (key : String) (v : Json)
    (x : DeviceState) :
    (fanValueBranch s key v = .ok x → x.hvacMode = s.hvacMode) ∧
      (fanValueBranch s key v = .error x → x.hvacMode = s.hvacMode) := by
  constructor <;> intro h <;>
    (unfold fanValueBranch at h
     repeat' split at h) <;>
    first
      | ((cases h <;> simp_all); done)
      | exact (fanElseBranch_hvac s _ x).1 h
      | exact (fanElseBranch_hvac s _ x).2 h
      | (simp_all; done)

theorem fanStage_hvac (s : DeviceState) (d : Json) (x : DeviceState) :
    (fanStage s d = .ok x → x.hvacMode = s.hvacMode) ∧
      (fanStage s d = .error x → x.hvacMode = s.hvacMode) := by
  constructor <;> intro h <;>
    (unfold fanStage at h
     repeat' split at h) <;>
    first
      | ((cases h <;> simp_all); done)
      | exact (fanValueBranch_hvac s _ _ x).1 h
      | exact (fanValueBranch_hvac s _ _ x).2 h
      | (simp_all; done)

theorem humidityStage_hvac (s : DeviceState) (d : Json) (x : DeviceState) :
    (humidityStage s d = .ok x → x.hvacMode = s.hvacMode) ∧
      (humidityStage s d = .error x → x.hvacMode = s.hvacMode) := by
  constructor <;> intro h <;>
    (unfold humidityStage at h
     repeat' split at h) <;>
    first
      | ((cases h <;> simp_all); done)
      | (simp_all; done)

theorem swingStage_hvac (s : DeviceState) (d : Json) (x : DeviceState) :
    (swingStage s d = .ok x → x.hvacMode = s.hvacMode) ∧
      (swingStage s d = .error x → x.hvacMode = s.hvacMode) := by
  constructor <;> intro h <;>
    (unfold swingStage at h
     repeat' split at h) <;>
    first
      | ((cases h <;> simp_all); done)
      | (simp_all; done)

theorem energyRuntimeStage_hvac (s : DeviceState) (d : Json) :
    (energyRuntimeStage s d).hvacMode = s.hvacMode := by
  unfold energyRuntimeStage
  split <;> rfl

/-- When the first block completes (no unhashable mode value with power
on), the HVAC mode of the finished update is exactly what that block
assigned: no later block changes it, on the normal path or on any abort
path. -/
theorem update_hvac_ok (st : DeviceState) (d : Json) (s1 : DeviceState)
    (h : hvacStage st d = .ok s1) :
    (DaikinClimate.update st (Fetch.ok d)).hvacMode = s1.hvacMode := by
  show (updateFromData st d).hvacMode = _
  simp only [updateFromData, h]
  cases h3 : targetStage (outsideStage s1 d) d with
  | error s =>
    rw [(targetStage_hvac _ d s).2 h3, outsideStage_hvac]
  | ok s3 =>
    have e3 : s3.hvacMode = s1.hvacMode := by
      rw [(targetStage_hvac _ d s3).1 h3, outsideStage_hvac]
    show (match fanStage (currentStage s3 d) d with
          | .error s => s
          | .ok s5 =>
            match humidityStage s5 d with
            | .error s => s
            | .ok s6 =>
              match swingStage s6 d with
              | .error s => s
              | .ok s7 => energyRuntimeStage s7 d).hvacMode = s1.hvacMode
    cases h5 : fanStage (currentStage s3 d) d with
    | error s =>
      rw [(fanStage_hvac _ d s).2 h5, currentStage_hvac, e3]
    | ok s5 =>
      have e5 : s5.hvacMode = s1.hvacMode := by
        rw [(fanStage_hvac _ d s5).1 h5, currentStage_hvac, e3]
      show (match humidityStage s5 d with
            | .error s => s
            | .ok s6 =>
              match swingStage s6 d with
              | .error s => s
              | .ok s7 => energyRuntimeStage s7 d).hvacMode = s1.hvacMode
      cases h6 : humidityStage s5 d with
      | error s => rw [(humidityStage_hvac s5 d s).2 h6, e5]
      | ok s6 =>
        have e6 : s6.hvacMode = s1.hvacMode := by
          rw [(humidityStage_hvac s5 d s6).1 h6, e5]
        show (match swingStage s6 d with
              | .error s => s
              | .ok s7 => energyRuntimeStage s7 d).hvacMode = s1.hvacMode
        cases h7 : swingStage s6 d with
        | error s => rw [(swingStage_hvac s6 d s).2 h7, e6]
        | ok s7 =>
          show (energyRuntimeStage s7 d).hvacMode = _
          rw [energyRuntimeStage_hvac, (swingStage_hvac s6 d s7).1 h7, e6]

/-- When the first block aborts, the whole update returns the state the
abort carried (the previous state, untouched). -/
theorem update_hvac_err (st : DeviceState) (d : Json) (s : DeviceState)
    (h : hvacStage st d = .error s) :
    DaikinClimate.update st (Fetch.ok d) = s := by
  show updateFromData st d = s
  simp only [updateFromData, h]

theorem modeLookup_ne_off (mv : Option Json) (m : HVACMode)
    (h : modeLookup mv = some m) : m ≠ HVACMode.off := by
  unfold modeLookup at h
  split at h <;> cases h <;> simp

theorem modeLookup_getD_off (mv : Option Json) :
    ((modeLookup mv).getD HVACMode.off = HVACMode.off) ↔ modeLookup mv = none := by
  cases hm : modeLookup mv with
  | none => simp
  | some m => simp [modeLookup_ne_off mv m hm]

theorem isOffOf_true_iff (o : Option Json) :
    isOffOf o = true ↔ (o = none ∨ o = some (Json.str "00")) := by
  cases o with
  | none => simp [isOffOf]
  | some v => cases v <;> simp [isOffOf]

theorem isOffOf_false_ne (o : Option Json) (h : isOffOf o = false) :
    o ≠ none ∧ o ≠ some (Json.str "00") := by
  constructor <;> intro hx <;> subst hx <;> simp [isOffOf] at h

/-- C10 (counterexample): a document with power "01" (on) whose mode node
carries a JSON list as its pv — a value that is not one of the five known
mode codes — does not yield OFF: `MODE_MAP.get` raises `TypeError` on the
unhashable key, the update aborts before the assignment, and the previous
mode (COOL here) is still reported. -/
theorem c10_counterexample :
    DaikinClimate.update stSample (Fetch.ok badModeDoc) = stSample ∧
      (DaikinClimate.update stSample (Fetch.ok badModeDoc)).hvacMode = HVACMode.cool ∧
      modeLookup (findValueByPn badModeDoc fr0100
        ["dgc_status", "e_1002", "e_3001", "p_01"]) = none ∧
      findValueByPn badModeDoc fr0100 ["dgc_status", "e_1002", "e_A002", "p_01"] =
        some (Json.str "01") :=
  ⟨rfl, rfl, rfl, rfl⟩

/-- C10 (amended): after a successfully fetched update cycle, whenever the
decoded power value says off OR the decoded mode value is hashable (a
string, a number, or absent), the reported HVAC mode is OFF exactly when
the power value is absent or "00" or the mode value is not one of the
five known mode codes, and a non-OFF mode is reported only when power is
on and the mode code is recognized; but when power is on and the mode
value is an unhashable JSON list or object, `MODE_MAP.get` raises
`TypeError`, the whole update aborts, and every field — the previous,
possibly non-OFF, HVAC mode included — keeps its prior value. -/
theorem c10_amended (st : DeviceState) (d : Json) :
    ((isOffOf (findValueByPn d fr0100 ["dgc_status", "e_1002", "e_A002", "p_01"]) = true ∨
        hashableValue (findValueByPn d fr0100 ["dgc_status", "e_1002", "e_3001", "p_01"]) =
          true) →
        ((DaikinClimate.update st (Fetch.ok d)).hvacMode = HVACMode.off ↔
          (findValueByPn d fr0100 ["dgc_status", "e_1002", "e_A002", "p_01"] = none ∨
            findValueByPn d fr0100 ["dgc_status", "e_1002", "e_A002", "p_01"] =
              some (Json.str "00") ∨
            modeLookup (findValueByPn d fr0100 ["dgc_status", "e_1002", "e_3001", "p_01"]) =
              none))) ∧
      (isOffOf (findValueByPn d fr0100 ["dgc_status", "e_1002", "e_A002", "p_01"]) = false →
        hashableValue (findValueByPn d fr0100 ["dgc_status", "e_1002", "e_3001", "p_01"]) =
          false →
        DaikinClimate.update st (Fetch.ok d) = st) := by
  constructor
  · intro h
    cases hps : isOffOf (findValueByPn d fr0100 ["dgc_status", "e_1002", "e_A002", "p_01"]) with
    | true =>
      have hstage : hvacStage st d = .ok { st with hvacMode := .off } := by
        simp [hvacStage, hps]
      rw [update_hvac_ok st d _ hstage]
      rcases (isOffOf_true_iff _).mp hps with h0 | h0 <;> simp [h0]
    | false =>
      have hm : hashableValue
          (findValueByPn d fr0100 ["dgc_status", "e_1002", "e_3001", "p_01"]) = true := by
        rcases h with h | h
        · rw [hps] at h; cases h
        · exact h
      have hstage : hvacStage st d = .ok { st with hvacMode :=
          (modeLookup (findValueByPn d fr0100
            ["dgc_status", "e_1002", "e_3001", "p_01"])).getD .off } := by
        simp [hvacStage, hps, hm]
      rw [update_hvac_ok st d _ hstage]
      have hne := isOffOf_false_ne _ hps
      simp [hne.1, hne.2, modeLookup_getD_off]
  · intro h1 h2
    exact update_hvac_err st d st (by simp [hvacStage, h1, h2])

/-- Witness for c10_amended: the iff at the full fixture (hashable mode
value "0200"), and the full-state retention at the unhashable-mode
document. -/
theorem c10_amended_witness :
    ((DaikinClimate.update stSample (Fetch.ok fixtureC6)).hvacMode = HVACMode.off ↔
      (findValueByPn fixtureC6 fr0100 ["dgc_status", "e_1002", "e_A002", "p_01"] = none ∨
        findValueByPn fixtureC6 fr0100 ["dgc_status", "e_1002", "e_A002", "p_01"] =
          some (Json.str "00") ∨
        modeLookup (findValueByPn fixtureC6 fr0100
          ["dgc_status", "e_1002", "e_3001", "p_01"]) = none)) ∧
      DaikinClimate.update stSample (Fetch.ok badModeDoc) = stSample :=
  ⟨(c10_amended stSample fixtureC6).1 (Or.inr rfl),
   (c10_amended stSample badModeDoc).2 rfl rfl⟩
